import Mathlib

/-!
The SyncIdentityProvider storage proxy: a shallow embedding of `pkg/hive/apiserver/registry/syncidentityprovider/proxy.go`.

Modelling conventions.

* A Go struct is a Lean structure; the Go zero value of a type is `default`.
* The types that come from other packages (object metadata, spec, status,
  list metadata, option structs, errors) are type parameters.
* The backing clientset and the package-level helpers the proxy calls
  (`util.SyncIdentityProviderFromHiveV1`, `util.SyncIdentityProviderToHiveV1`,
  the list option conversion, `apierrors.NewBadRequest`) are parameters.
* The backing store is a state `σ`; every client method is a function from a
  store to a result and a new store. A `World` pairs the store with the
  list of backing calls made so far, oldest first.
* A Go call returning `(obj, err)` returns `Option obj × Option err`, a `nil`
  being `none`. An operation as a whole returns `none` when the Go code
  panics at a failed type assertion.
* `reflect.DeepEqual` is structural equality of values, and a deep copy is the
  value itself (values are immutable here, so nothing is shared).
* Logging is left out: it touches neither the results nor the backing client.
* Parameters the Go methods take and never read (the validation functions, the
  create and update options) are left out; `forceAllowCreate` is kept.
-/

set_option autoImplicit false
set_option linter.dupNamespace false
set_option linter.unusedVariables false

/-- Results of fallible calls can be compared. -/
instance instDecidableEqExcept {ε α : Type} [DecidableEq ε] [DecidableEq α] :
    DecidableEq (Except ε α)
  | .ok x, .ok y => if h : x = y then isTrue (by rw [h]) else isFalse (by
      intro hxy
      cases hxy
      exact h rfl)
  | .error x, .error y => if h : x = y then isTrue (by rw [h]) else isFalse (by
      intro hxy
      cases hxy
      exact h rfl)
  | .ok _, .error _ => isFalse (by intro h; cases h)
  | .error _, .ok _ => isFalse (by intro h; cases h)

namespace metav1

/-- The fields of `metav1.Status` that matter here. -/
structure Status where
  Status : String
  Message : String
  Reason : String
  Code : Int
deriving DecidableEq

/-- The constant `metav1.StatusSuccess`. -/
def StatusSuccess : String := "Success"

end metav1

namespace hivev1

/-- The backing resource `hivev1.SyncIdentityProvider`: metadata (type and
object metadata together), spec and status. -/
structure SyncIdentityProvider (M Sp St : Type) where
  ObjectMeta : M
  Spec : Sp
  Status : St
deriving DecidableEq

instance instInhabitedSyncIdentityProvider {M Sp St : Type} [Inhabited M] [Inhabited Sp]
    [Inhabited St] : Inhabited (SyncIdentityProvider M Sp St) :=
  ⟨{ ObjectMeta := default, Spec := default, Status := default }⟩

/-- The backing list `hivev1.SyncIdentityProviderList`. -/
structure SyncIdentityProviderList (LM M Sp St : Type) where
  ListMeta : LM
  Items : List (SyncIdentityProvider M Sp St)
deriving DecidableEq

end hivev1

namespace hiveapi

/-- The public resource `hiveapi.SyncIdentityProvider`. -/
structure SyncIdentityProvider (M Sp St : Type) where
  ObjectMeta : M
  Spec : Sp
  Status : St
deriving DecidableEq

instance instInhabitedSyncIdentityProvider {M Sp St : Type} [Inhabited M] [Inhabited Sp]
    [Inhabited St] : Inhabited (SyncIdentityProvider M Sp St) :=
  ⟨{ ObjectMeta := default, Spec := default, Status := default }⟩

/-- The public list `hiveapi.SyncIdentityProviderList`. -/
structure SyncIdentityProviderList (LM M Sp St : Type) where
  ListMeta : LM
  Items : List (SyncIdentityProvider M Sp St)
deriving DecidableEq

end hiveapi

namespace runtime

/-- The dynamically typed `runtime.Object` values that occur: a public
resource, a public list, or a `metav1.Status`. The type assertion
`obj.(*hiveapi.SyncIdentityProvider)` succeeds on the first alternative only. -/
inductive Object (LM M Sp St : Type) where
  | SyncIdentityProvider (o : hiveapi.SyncIdentityProvider M Sp St)
  | SyncIdentityProviderList (l : hiveapi.SyncIdentityProviderList LM M Sp St)
  | Status (s : metav1.Status)
deriving DecidableEq

end runtime

namespace reflect

/-- Deep equality of two values of one type. -/
def DeepEqual {α : Type} [DecidableEq α] (x y : α) : Bool := decide (x = y)

end reflect

namespace apirequest

/-- The request context, as far as the proxy reads it: the namespace, if any. -/
structure Context where
  ns : Option String
deriving DecidableEq

/-- The namespace of a context, `none` when the Go function returns `ok = false`. -/
def NamespaceFrom (ctx : Context) : Option String := ctx.ns

end apirequest

namespace hivev1client

/-- The namespace-scoped backing client. Each method takes the store and gives
its result with the store after the call. -/
structure SyncIdentityProviderInterface (σ E LM M Sp St GO LO DO : Type) where
  Create : hivev1.SyncIdentityProvider M Sp St → σ →
    Except E (hivev1.SyncIdentityProvider M Sp St) × σ
  Update : hivev1.SyncIdentityProvider M Sp St → σ →
    Except E (hivev1.SyncIdentityProvider M Sp St) × σ
  UpdateStatus : hivev1.SyncIdentityProvider M Sp St → σ →
    Except E (hivev1.SyncIdentityProvider M Sp St) × σ
  Delete : String → DO → σ → Option E × σ
  Get : String → GO → σ → Except E (hivev1.SyncIdentityProvider M Sp St) × σ
  List : LO → σ → Except E (hivev1.SyncIdentityProviderList LM M Sp St) × σ

/-- The clientset: a namespace gives a namespace-scoped client. -/
structure HiveV1Interface (σ E LM M Sp St GO LO DO : Type) where
  SyncIdentityProviders : String → SyncIdentityProviderInterface σ E LM M Sp St GO LO DO

end hivev1client

namespace rest

/-- The caller-supplied transform of an update: from the context and the current
public object to the wanted object, or an error. What it returns is a
`runtime.Object`, not known to be of the public type. -/
structure UpdatedObjectInfo (E LM M Sp St : Type) where
  UpdatedObject : apirequest.Context → hiveapi.SyncIdentityProvider M Sp St →
    Except E (runtime.Object LM M Sp St)

end rest

namespace syncidentityprovider

/-- One call on the backing client, with the namespace of the scoped client
it was made on and the arguments it was given. -/
inductive BackingCall (M Sp St GO LO DO : Type) where
  | Get (ns name : String) (options : GO)
  | List (ns : String) (opts : LO)
  | Create (ns : String) (obj : hivev1.SyncIdentityProvider M Sp St)
  | Update (ns : String) (obj : hivev1.SyncIdentityProvider M Sp St)
  | UpdateStatus (ns : String) (obj : hivev1.SyncIdentityProvider M Sp St)
  | Delete (ns name : String) (options : DO)
deriving DecidableEq

/-- The backing store and the calls made on it so far, oldest first. -/
structure World (σ M Sp St GO LO DO : Type) where
  store : σ
  calls : List (BackingCall M Sp St GO LO DO)
deriving DecidableEq

/-- A namespace-scoped client together with the namespace it is bound to. -/
structure Client (σ E LM M Sp St GO LO DO : Type) where
  ns : String
  backend : hivev1client.SyncIdentityProviderInterface σ E LM M Sp St GO LO DO

section client

variable {σ E LM M Sp St GO LO DO : Type}

/-- The call `client.Get(name, options)`. -/
def Client.Get (c : Client σ E LM M Sp St GO LO DO) (name : String) (options : GO)
    (w : World σ M Sp St GO LO DO) :
    Except E (hivev1.SyncIdentityProvider M Sp St) × World σ M Sp St GO LO DO :=
  let r := c.backend.Get name options w.store
  (r.1, { store := r.2, calls := w.calls ++ [BackingCall.Get c.ns name options] })

/-- The call `client.List(opts)`. -/
def Client.List (c : Client σ E LM M Sp St GO LO DO) (opts : LO)
    (w : World σ M Sp St GO LO DO) :
    Except E (hivev1.SyncIdentityProviderList LM M Sp St) × World σ M Sp St GO LO DO :=
  let r := c.backend.List opts w.store
  (r.1, { store := r.2, calls := w.calls ++ [BackingCall.List c.ns opts] })

/-- The call `client.Create(obj)`. -/
def Client.Create (c : Client σ E LM M Sp St GO LO DO)
    (obj : hivev1.SyncIdentityProvider M Sp St) (w : World σ M Sp St GO LO DO) :
    Except E (hivev1.SyncIdentityProvider M Sp St) × World σ M Sp St GO LO DO :=
  let r := c.backend.Create obj w.store
  (r.1, { store := r.2, calls := w.calls ++ [BackingCall.Create c.ns obj] })

/-- The call `client.Update(obj)`. -/
def Client.Update (c : Client σ E LM M Sp St GO LO DO)
    (obj : hivev1.SyncIdentityProvider M Sp St) (w : World σ M Sp St GO LO DO) :
    Except E (hivev1.SyncIdentityProvider M Sp St) × World σ M Sp St GO LO DO :=
  let r := c.backend.Update obj w.store
  (r.1, { store := r.2, calls := w.calls ++ [BackingCall.Update c.ns obj] })

/-- The call `client.UpdateStatus(obj)`. -/
def Client.UpdateStatus (c : Client σ E LM M Sp St GO LO DO)
    (obj : hivev1.SyncIdentityProvider M Sp St) (w : World σ M Sp St GO LO DO) :
    Except E (hivev1.SyncIdentityProvider M Sp St) × World σ M Sp St GO LO DO :=
  let r := c.backend.UpdateStatus obj w.store
  (r.1, { store := r.2, calls := w.calls ++ [BackingCall.UpdateStatus c.ns obj] })

/-- The call `client.Delete(name, options)`. -/
def Client.Delete (c : Client σ E LM M Sp St GO LO DO) (name : String) (options : DO)
    (w : World σ M Sp St GO LO DO) : Option E × World σ M Sp St GO LO DO :=
  let r := c.backend.Delete name options w.store
  (r.1, { store := r.2, calls := w.calls ++ [BackingCall.Delete c.ns name options] })

end client

/-- The package-level functions the proxy calls. The two converters write
into the object given as their second argument and return it. -/
structure Externals (E M Sp St M' Sp' St' ILO LO : Type) where
  SyncIdentityProviderFromHiveV1 : hivev1.SyncIdentityProvider M Sp St →
    hiveapi.SyncIdentityProvider M' Sp' St' → Except E (hiveapi.SyncIdentityProvider M' Sp' St')
  SyncIdentityProviderToHiveV1 : hiveapi.SyncIdentityProvider M' Sp' St' →
    hivev1.SyncIdentityProvider M Sp St → Except E (hivev1.SyncIdentityProvider M Sp St)
  Convert_internalversion_ListOptions_To_v1_ListOptions : ILO → LO → Except E LO
  NewBadRequest : String → E

/-- The storage `REST`; its table convertor and logger play no part here. -/
structure REST (σ E LM M Sp St GO LO DO : Type) where
  client : hivev1client.HiveV1Interface σ E LM M Sp St GO LO DO

section operations

variable {σ E LM M Sp St M' Sp' St' GO ILO LO DO : Type}

/-- The method `getClient`: the client scoped to the namespace of the context,
or a bad-request error when the context has none. -/
def REST.getClient (s : REST σ E LM M Sp St GO LO DO)
    (ext : Externals E M Sp St M' Sp' St' ILO LO) (ctx : apirequest.Context) :
    Except E (Client σ E LM M Sp St GO LO DO) :=
  match apirequest.NamespaceFrom ctx with
  | none => .error (ext.NewBadRequest "namespace parameter required")
  | some ns => .ok { ns := ns, backend := s.client.SyncIdentityProviders ns }

/-- The loop of `List`: convert each backing item into a fresh public item,
stopping at the first conversion that fails. -/
def convertItems [Inhabited M'] [Inhabited Sp'] [Inhabited St']
    (ext : Externals E M Sp St M' Sp' St' ILO LO) :
    List (hivev1.SyncIdentityProvider M Sp St) →
      Except E (List (hiveapi.SyncIdentityProvider M' Sp' St'))
  | [] => .ok []
  | curr :: more =>
    match ext.SyncIdentityProviderFromHiveV1 curr default with
    | .error err => .error err
    | .ok item =>
      match convertItems ext more with
      | .error err => .error err
      | .ok items => .ok (item :: items)

/-- The method `List`. -/
def REST.List [Inhabited M'] [Inhabited Sp'] [Inhabited St'] [Inhabited LO]
    (s : REST σ E LM M Sp St GO LO DO) (ext : Externals E M Sp St M' Sp' St' ILO LO)
    (ctx : apirequest.Context) (options : ILO) (w : World σ M Sp St GO LO DO) :
    Option ((Option (runtime.Object LM M' Sp' St') × Option E) × World σ M Sp St GO LO DO) :=
  match s.getClient ext ctx with
  | .error err => some ((none, some err), w)
  | .ok client =>
    match ext.Convert_internalversion_ListOptions_To_v1_ListOptions options default with
    | .error err => some ((none, some err), w)
    | .ok optv1 =>
      match client.List optv1 w with
      | (.error err, w1) => some ((none, some err), w1)
      | (.ok syncIdentityProviders, w1) =>
        match convertItems ext syncIdentityProviders.Items with
        | .error err => some ((none, some err), w1)
        | .ok items =>
          some ((some (.SyncIdentityProviderList
            { ListMeta := syncIdentityProviders.ListMeta, Items := items }), none), w1)

/-- The method `Get`. -/
def REST.Get [Inhabited M'] [Inhabited Sp'] [Inhabited St']
    (s : REST σ E LM M Sp St GO LO DO) (ext : Externals E M Sp St M' Sp' St' ILO LO)
    (ctx : apirequest.Context) (name : String) (options : GO)
    (w : World σ M Sp St GO LO DO) :
    Option ((Option (runtime.Object LM M' Sp' St') × Option E) × World σ M Sp St GO LO DO) :=
  match s.getClient ext ctx with
  | .error err => some ((none, some err), w)
  | .ok client =>
    match client.Get name options w with
    | (.error err, w1) => some ((none, some err), w1)
    | (.ok ret, w1) =>
      match ext.SyncIdentityProviderFromHiveV1 ret default with
      | .error err => some ((none, some err), w1)
      | .ok syncIdentityProvider =>
        some ((some (.SyncIdentityProvider syncIdentityProvider), none), w1)

/-- The method `Delete`. -/
def REST.Delete (s : REST σ E LM M Sp St GO LO DO)
    (ext : Externals E M Sp St M' Sp' St' ILO LO)
    (ctx : apirequest.Context) (name : String) (options : DO)
    (w : World σ M Sp St GO LO DO) :
    Option ((Option (runtime.Object LM M' Sp' St') × Bool × Option E) ×
      World σ M Sp St GO LO DO) :=
  match s.getClient ext ctx with
  | .error err => some ((none, false, some err), w)
  | .ok client =>
    match client.Delete name options w with
    | (some err, w1) => some ((none, false, some err), w1)
    | (none, w1) =>
      some ((some (.Status (metav1.Status.mk metav1.StatusSuccess "" "" 0)), true, none), w1)

/-- The method `Create`. The object is asserted to be a public resource
before anything else happens (its name goes into the log line). -/
def REST.Create [Inhabited M] [Inhabited Sp] [Inhabited St]
    [Inhabited M'] [Inhabited Sp'] [Inhabited St']
    (s : REST σ E LM M Sp St GO LO DO) (ext : Externals E M Sp St M' Sp' St' ILO LO)
    (ctx : apirequest.Context) (obj : runtime.Object LM M' Sp' St')
    (w : World σ M Sp St GO LO DO) :
    Option ((Option (runtime.Object LM M' Sp' St') × Option E) × World σ M Sp St GO LO DO) :=
  match obj with
  | .SyncIdentityProvider o =>
    match s.getClient ext ctx with
    | .error err => some ((none, some err), w)
    | .ok client =>
      match ext.SyncIdentityProviderToHiveV1 o default with
      | .error err => some ((none, some err), w)
      | .ok convertedObj =>
        match client.Create convertedObj w with
        | (.error err, w1) => some ((none, some err), w1)
        | (.ok ret, w1) =>
          match ext.SyncIdentityProviderFromHiveV1 ret default with
          | .error err => some ((none, some err), w1)
          | .ok syncIdentityProvider =>
            some ((some (.SyncIdentityProvider syncIdentityProvider), none), w1)
  | _ => none

/-- The method `Update`: fetch, transform, then a regular update when the
object without its status changed and a status update when the status
changed. The variable `err` of the final `return new, false, err` is the one
assigned by `UpdatedObject`, which is `nil` once that call has succeeded; the
two `err` variables of the write phases are local to their blocks. -/
def REST.Update [DecidableEq M] [DecidableEq Sp] [DecidableEq St] [Inhabited St]
    [Inhabited GO] [Inhabited M'] [Inhabited Sp'] [Inhabited St']
    (s : REST σ E LM M Sp St GO LO DO) (ext : Externals E M Sp St M' Sp' St' ILO LO)
    (ctx : apirequest.Context) (name : String)
    (objInfo : rest.UpdatedObjectInfo E LM M' Sp' St') (forceAllowCreate : Bool)
    (w : World σ M Sp St GO LO DO) :
    Option ((Option (runtime.Object LM M' Sp' St') × Bool × Option E) ×
      World σ M Sp St GO LO DO) :=
  match s.getClient ext ctx with
  | .error err => some ((none, false, some err), w)
  | .ok client =>
    match client.Get name default w with
    | (.error err, w1) => some ((none, false, some err), w1)
    | (.ok syncIdentityProvider, w1) =>
      let origSyncIdentityProvider := syncIdentityProvider
      let origStatus := origSyncIdentityProvider.Status
      let origSyncIdentityProvider := { origSyncIdentityProvider with Status := default }
      match ext.SyncIdentityProviderFromHiveV1 syncIdentityProvider default with
      | .error err => some ((none, false, some err), w1)
      | .ok old =>
        match objInfo.UpdatedObject ctx old with
        | .error err => some ((none, false, some err), w1)
        | .ok obj =>
          let err : Option E := none
          match obj with
          | .SyncIdentityProvider o =>
            match ext.SyncIdentityProviderToHiveV1 o syncIdentityProvider with
            | .error err => some ((none, false, some err), w1)
            | .ok syncIdentityProvider =>
              let newStatus := syncIdentityProvider.Status
              let syncIdentityProvider := { syncIdentityProvider with Status := default }
              match (if !reflect.DeepEqual syncIdentityProvider origSyncIdentityProvider then
                  client.Update syncIdentityProvider w1
                else (.ok syncIdentityProvider, w1)) with
              | (.error err, w2) => some ((none, false, some err), w2)
              | (.ok syncIdentityProvider, w2) =>
                let syncIdentityProvider := { syncIdentityProvider with Status := newStatus }
                match (if !reflect.DeepEqual newStatus origStatus then
                    client.UpdateStatus syncIdentityProvider w2
                  else (.ok syncIdentityProvider, w2)) with
                | (.error err, w3) => some ((none, false, some err), w3)
                | (.ok syncIdentityProvider, w3) =>
                  match ext.SyncIdentityProviderFromHiveV1 syncIdentityProvider default with
                  | .error err => some ((none, false, some err), w3)
                  | .ok new => some ((some (.SyncIdentityProvider new), false, err), w3)
          | _ => none

end operations

namespace scenario

/-- The errors of the scenarios. -/
inductive Err where
  | badRequest (msg : String)
  | notFound
  | conflict
  | invalid
  | conversion
deriving DecidableEq

/-- The stored resource `r1`, with spec `A` and status `X`. -/
def r1 : hivev1.SyncIdentityProvider String String String :=
  { ObjectMeta := "r1", Spec := "A", Status := "X" }

/-- A second resource, whose spec has no public form. -/
def r2 : hivev1.SyncIdentityProvider String String String :=
  { ObjectMeta := "r2", Spec := "opaque", Status := "" }

/-- A backing client over a store that holds one resource. Reads and deletes
find it by its name. A regular update answers with the object it is given and
stores it with the stored status kept; a status update answers with the object
it is given and stores its status. A spec `bad` or a status `bad` is rejected. -/
def backend : hivev1client.SyncIdentityProviderInterface
    (hivev1.SyncIdentityProvider String String String) Err String String String String
    Unit String Unit where
  Create obj _ := (.ok obj, obj)
  Update obj st :=
    if obj.Spec = "bad" then (.error Err.invalid, st)
    else (.ok obj, { obj with Status := st.Status })
  UpdateStatus obj st :=
    if obj.Status = "bad" then (.error Err.conflict, st)
    else (.ok obj, { st with Status := obj.Status })
  Delete name _ st :=
    if name = st.ObjectMeta then (none, st) else (some Err.notFound, st)
  Get name _ st :=
    if name = st.ObjectMeta then (.ok st, st) else (.error Err.notFound, st)
  List opts st :=
    if opts = "bad" then (.error Err.invalid, st)
    else if opts = "all" then (.ok { ListMeta := "rv7", Items := [st, r2] }, st)
    else (.ok { ListMeta := "rv7", Items := [st] }, st)

/-- The storage over that client, the same in every namespace. -/
def storage : REST (hivev1.SyncIdentityProvider String String String) Err String String
    String String Unit String Unit :=
  { client := { SyncIdentityProviders := fun _ => backend } }

/-- Converters that copy metadata, spec and status; the spec `opaque` has no
public form. List options pass through, except the selector `malformed`. -/
def ext : Externals Err String String String String String String String String where
  SyncIdentityProviderFromHiveV1 b _ :=
    if b.Spec = "opaque" then .error Err.conversion
    else .ok { ObjectMeta := b.ObjectMeta, Spec := b.Spec, Status := b.Status }
  SyncIdentityProviderToHiveV1 o _ :=
    .ok { ObjectMeta := o.ObjectMeta, Spec := o.Spec, Status := o.Status }
  Convert_internalversion_ListOptions_To_v1_ListOptions options _ :=
    if options = "malformed" then .error Err.invalid else .ok options
  NewBadRequest := Err.badRequest

/-- A transform that sets the spec and the status it is given and keeps the rest. -/
def edit (spec status : Option String) : rest.UpdatedObjectInfo Err String String String String :=
  { UpdatedObject := fun _ old =>
      .ok (.SyncIdentityProvider
        { old with Spec := spec.getD old.Spec, Status := status.getD old.Status }) }

/-- A transform that fails. -/
def refuse : rest.UpdatedObjectInfo Err String String String String :=
  { UpdatedObject := fun _ _ => .error Err.conflict }

/-- A context with the namespace `ns1`. -/
def ctx : apirequest.Context := { ns := some "ns1" }

/-- A context without a namespace. -/
def bare : apirequest.Context := { ns := none }

/-- The world before the call: `r1` stored, no call made. -/
def w0 : World (hivev1.SyncIdentityProvider String String String) String String String
    Unit String Unit :=
  { store := r1, calls := [] }

end scenario

section properties

variable {σ E LM M Sp St M' Sp' St' GO ILO LO DO : Type}

/-- With a namespace in the context, `getClient` gives the client scoped to it. -/
theorem getClient_of_namespace (s : REST σ E LM M Sp St GO LO DO)
    (ext : Externals E M Sp St M' Sp' St' ILO LO) (ctx : apirequest.Context) (ns : String)
    (hns : apirequest.NamespaceFrom ctx = some ns) :
    s.getClient ext ctx = .ok { ns := ns, backend := s.client.SyncIdentityProviders ns } := by
  simp only [REST.getClient, hns]

/-- Without a namespace in the context, `getClient` fails with the bad-request error. -/
theorem getClient_of_no_namespace (s : REST σ E LM M Sp St GO LO DO)
    (ext : Externals E M Sp St M' Sp' St' ILO LO) (ctx : apirequest.Context)
    (hns : apirequest.NamespaceFrom ctx = none) :
    s.getClient ext ctx = .error (ext.NewBadRequest "namespace parameter required") := by
  simp only [REST.getClient, hns]

/-- C5: with no namespace in the context, `Get`, `List`, `Delete`, `Create` (on an
object of the public type) and `Update` each return the bad-request error and no
object (and `false` where there is a flag), and leave the world, hence the list of
backing calls, as it was. -/
theorem no_namespace_bad_request
    [DecidableEq M] [DecidableEq Sp] [DecidableEq St]
    [Inhabited M] [Inhabited Sp] [Inhabited St] [Inhabited GO] [Inhabited LO]
    [Inhabited M'] [Inhabited Sp'] [Inhabited St']
    (s : REST σ E LM M Sp St GO LO DO) (ext : Externals E M Sp St M' Sp' St' ILO LO)
    (ctx : apirequest.Context) (w : World σ M Sp St GO LO DO)
    (hns : apirequest.NamespaceFrom ctx = none) :
    (∀ (name : String) (options : GO), s.Get ext ctx name options w =
        some ((none, some (ext.NewBadRequest "namespace parameter required")), w)) ∧
    (∀ options : ILO, s.List ext ctx options w =
        some ((none, some (ext.NewBadRequest "namespace parameter required")), w)) ∧
    (∀ (name : String) (options : DO), s.Delete ext ctx name options w =
        some ((none, false, some (ext.NewBadRequest "namespace parameter required")), w)) ∧
    (∀ o : hiveapi.SyncIdentityProvider M' Sp' St',
      s.Create ext ctx (.SyncIdentityProvider o) w =
        some ((none, some (ext.NewBadRequest "namespace parameter required")), w)) ∧
    (∀ (name : String) (objInfo : rest.UpdatedObjectInfo E LM M' Sp' St')
      (forceAllowCreate : Bool), s.Update ext ctx name objInfo forceAllowCreate w =
        some ((none, false, some (ext.NewBadRequest "namespace parameter required")), w)) := by
  have hc := getClient_of_no_namespace s ext ctx hns
  refine ⟨?_, ?_, ?_, ?_, ?_⟩
  · intro name options
    simp only [REST.Get, hc]
  · intro options
    simp only [REST.List, hc]
  · intro name options
    simp only [REST.Delete, hc]
  · intro o
    simp only [REST.Create, hc]
  · intro name objInfo forceAllowCreate
    simp only [REST.Update, hc]

/-- C7: with a namespace in the context, `Delete` calls the backing delete once,
with the name and the options it was given; when the backing delete succeeds it
returns a status object whose status is success, `true` and no error, and when
the backing delete fails it returns no object, `false` and that error. -/
theorem Delete_result (s : REST σ E LM M Sp St GO LO DO)
    (ext : Externals E M Sp St M' Sp' St' ILO LO) (ctx : apirequest.Context)
    (ns name : String) (options : DO) (w : World σ M Sp St GO LO DO)
    (hns : apirequest.NamespaceFrom ctx = some ns) :
    (∀ st1 : σ, (s.client.SyncIdentityProviders ns).Delete name options w.store = (none, st1) →
      ∃ status : metav1.Status, status.Status = metav1.StatusSuccess ∧
        s.Delete ext ctx name options w =
          some ((some (runtime.Object.Status status), true, none),
            { store := st1, calls := w.calls ++ [BackingCall.Delete ns name options] })) ∧
    (∀ (err : E) (st1 : σ),
      (s.client.SyncIdentityProviders ns).Delete name options w.store = (some err, st1) →
        s.Delete ext ctx name options w =
          some ((none, false, some err),
            { store := st1, calls := w.calls ++ [BackingCall.Delete ns name options] })) := by
  have hc := getClient_of_namespace s ext ctx ns hns
  constructor
  · intro st1 hdel
    refine ⟨metav1.Status.mk metav1.StatusSuccess "" "" 0, rfl, ?_⟩
    simp only [REST.Delete, hc, Client.Delete, hdel]
  · intro err st1 hdel
    simp only [REST.Delete, hc, Client.Delete, hdel]

/-- C1: when the fetched object `b` converts to `old`, the transform returns `old`
unchanged and converting `old` back into `b` leaves `b` as it was, `Update` makes
the initial `Get` and no other backing call (neither `Update` nor `UpdateStatus`),
and returns `old`. -/
theorem Update_identity_no_write
    [DecidableEq M] [DecidableEq Sp] [DecidableEq St] [Inhabited St] [Inhabited GO]
    [Inhabited M'] [Inhabited Sp'] [Inhabited St']
    (s : REST σ E LM M Sp St GO LO DO) (ext : Externals E M Sp St M' Sp' St' ILO LO)
    (ctx : apirequest.Context) (ns name : String)
    (objInfo : rest.UpdatedObjectInfo E LM M' Sp' St') (forceAllowCreate : Bool)
    (w : World σ M Sp St GO LO DO)
    (b : hivev1.SyncIdentityProvider M Sp St) (st1 : σ)
    (old : hiveapi.SyncIdentityProvider M' Sp' St')
    (hns : apirequest.NamespaceFrom ctx = some ns)
    (hget : (s.client.SyncIdentityProviders ns).Get name default w.store = (.ok b, st1))
    (hfrom : ext.SyncIdentityProviderFromHiveV1 b default = .ok old)
    (hobj : objInfo.UpdatedObject ctx old = .ok (.SyncIdentityProvider old))
    (hto : ext.SyncIdentityProviderToHiveV1 old b = .ok b) :
    s.Update ext ctx name objInfo forceAllowCreate w =
      some ((some (.SyncIdentityProvider old), false, none),
        { store := st1, calls := w.calls ++ [BackingCall.Get ns name default] }) := by
  have hc := getClient_of_namespace s ext ctx ns hns
  simp only [REST.Update, hc, Client.Get, hget, hfrom, hobj, hto, reflect.DeepEqual,
    decide_True, Bool.not_true, Bool.false_eq_true, if_false]

/-- C6: when the transform fails, `Update` returns the error of the transform, no
object and `false`, and the initial `Get` is the only backing call it makes. -/
theorem Update_transform_error
    [DecidableEq M] [DecidableEq Sp] [DecidableEq St] [Inhabited St] [Inhabited GO]
    [Inhabited M'] [Inhabited Sp'] [Inhabited St']
    (s : REST σ E LM M Sp St GO LO DO) (ext : Externals E M Sp St M' Sp' St' ILO LO)
    (ctx : apirequest.Context) (ns name : String)
    (objInfo : rest.UpdatedObjectInfo E LM M' Sp' St') (forceAllowCreate : Bool)
    (w : World σ M Sp St GO LO DO)
    (b : hivev1.SyncIdentityProvider M Sp St) (st1 : σ)
    (old : hiveapi.SyncIdentityProvider M' Sp' St') (err : E)
    (hns : apirequest.NamespaceFrom ctx = some ns)
    (hget : (s.client.SyncIdentityProviders ns).Get name default w.store = (.ok b, st1))
    (hfrom : ext.SyncIdentityProviderFromHiveV1 b default = .ok old)
    (hobj : objInfo.UpdatedObject ctx old = .error err) :
    s.Update ext ctx name objInfo forceAllowCreate w =
      some ((none, false, some err),
        { store := st1, calls := w.calls ++ [BackingCall.Get ns name default] }) := by
  have hc := getClient_of_namespace s ext ctx ns hns
  simp only [REST.Update, hc, Client.Get, hget, hfrom, hobj]

/-- C2: when the result of the transform, converted back into the fetched object `b`,
gives `nb` that differs from `b` once both statuses are zeroed and has the status
of `b`, and the regular backing update succeeds, `Update` makes exactly the calls
`Get` and one regular `Update` (carrying `nb` with its status zeroed), hence no
`UpdateStatus` call. -/
theorem Update_spec_change_one_update
    [DecidableEq M] [DecidableEq Sp] [DecidableEq St] [Inhabited St] [Inhabited GO]
    [Inhabited M'] [Inhabited Sp'] [Inhabited St']
    (s : REST σ E LM M Sp St GO LO DO) (ext : Externals E M Sp St M' Sp' St' ILO LO)
    (ctx : apirequest.Context) (ns name : String)
    (objInfo : rest.UpdatedObjectInfo E LM M' Sp' St') (forceAllowCreate : Bool)
    (w : World σ M Sp St GO LO DO)
    (b nb resp : hivev1.SyncIdentityProvider M Sp St) (st1 st2 : σ)
    (old o : hiveapi.SyncIdentityProvider M' Sp' St')
    (hns : apirequest.NamespaceFrom ctx = some ns)
    (hget : (s.client.SyncIdentityProviders ns).Get name default w.store = (.ok b, st1))
    (hfrom : ext.SyncIdentityProviderFromHiveV1 b default = .ok old)
    (hobj : objInfo.UpdatedObject ctx old = .ok (.SyncIdentityProvider o))
    (hto : ext.SyncIdentityProviderToHiveV1 o b = .ok nb)
    (hspec : ({ nb with Status := default } : hivev1.SyncIdentityProvider M Sp St) ≠
      { b with Status := default })
    (hstatus : nb.Status = b.Status)
    (hupd : (s.client.SyncIdentityProviders ns).Update { nb with Status := default } st1 =
      (.ok resp, st2)) :
    ∃ r, s.Update ext ctx name objInfo forceAllowCreate w =
      some (r, { store := st2, calls := w.calls ++
        [BackingCall.Get ns name default,
         BackingCall.Update ns { nb with Status := default }] }) := by
  have hc := getClient_of_namespace s ext ctx ns hns
  simp only [REST.Update, hc, Client.Get, hget, hfrom, hobj, hto, reflect.DeepEqual,
    hspec, hstatus, Client.Update, hupd, decide_True, decide_False, Bool.not_true,
    Bool.not_false, Bool.false_eq_true, if_false, if_true, List.append_assoc,
    List.singleton_append]
  cases ext.SyncIdentityProviderFromHiveV1
    { ObjectMeta := resp.ObjectMeta, Spec := resp.Spec, Status := b.Status } default with
  | error err => exact ⟨_, rfl⟩
  | ok new => exact ⟨_, rfl⟩

/-- C3: when the result of the transform, converted back into the fetched object `b`,
gives `nb` whose status differs from the status of `b` and which equals `b` once
both statuses are zeroed, and the status update succeeds, `Update` makes exactly
the calls `Get` and one `UpdateStatus` (carrying `nb`), hence no regular `Update`
call. -/
theorem Update_status_change_one_status_update
    [DecidableEq M] [DecidableEq Sp] [DecidableEq St] [Inhabited St] [Inhabited GO]
    [Inhabited M'] [Inhabited Sp'] [Inhabited St']
    (s : REST σ E LM M Sp St GO LO DO) (ext : Externals E M Sp St M' Sp' St' ILO LO)
    (ctx : apirequest.Context) (ns name : String)
    (objInfo : rest.UpdatedObjectInfo E LM M' Sp' St') (forceAllowCreate : Bool)
    (w : World σ M Sp St GO LO DO)
    (b nb resp : hivev1.SyncIdentityProvider M Sp St) (st1 st2 : σ)
    (old o : hiveapi.SyncIdentityProvider M' Sp' St')
    (hns : apirequest.NamespaceFrom ctx = some ns)
    (hget : (s.client.SyncIdentityProviders ns).Get name default w.store = (.ok b, st1))
    (hfrom : ext.SyncIdentityProviderFromHiveV1 b default = .ok old)
    (hobj : objInfo.UpdatedObject ctx old = .ok (.SyncIdentityProvider o))
    (hto : ext.SyncIdentityProviderToHiveV1 o b = .ok nb)
    (hspec : ({ nb with Status := default } : hivev1.SyncIdentityProvider M Sp St) =
      { b with Status := default })
    (hstatus : nb.Status ≠ b.Status)
    (hupd : (s.client.SyncIdentityProviders ns).UpdateStatus nb st1 = (.ok resp, st2)) :
    ∃ r, s.Update ext ctx name objInfo forceAllowCreate w =
      some (r, { store := st2, calls := w.calls ++
        [BackingCall.Get ns name default, BackingCall.UpdateStatus ns nb] }) := by
  have hc := getClient_of_namespace s ext ctx ns hns
  obtain ⟨nbMeta, nbSpec, nbStatus⟩ := nb
  obtain ⟨bMeta, bSpec, bStatus⟩ := b
  simp only [hivev1.SyncIdentityProvider.mk.injEq, and_true] at hspec
  obtain ⟨rfl, rfl⟩ := hspec
  simp only at hstatus
  simp only [REST.Update, hc, Client.Get, hget, hfrom, hobj, hto, reflect.DeepEqual,
    hstatus, Client.UpdateStatus, hupd, decide_True, decide_False, Bool.not_true,
    Bool.not_false, Bool.false_eq_true, if_false, if_true, List.append_assoc,
    List.singleton_append]
  cases ext.SyncIdentityProviderFromHiveV1 resp default with
  | error err => exact ⟨_, rfl⟩
  | ok new => exact ⟨_, rfl⟩

/-- C4: when the result of the transform, converted back into the fetched object `b`,
gives `nb` that differs from `b` both once the statuses are zeroed and in its
status, and both backing writes succeed, the calls `Update` makes are exactly
`Get`, then a regular `Update` carrying `nb` with its status zeroed, then an
`UpdateStatus` carrying the response of that regular update with its status set
to the status of `nb`. -/
theorem Update_both_change_trace
    [DecidableEq M] [DecidableEq Sp] [DecidableEq St] [Inhabited St] [Inhabited GO]
    [Inhabited M'] [Inhabited Sp'] [Inhabited St']
    (s : REST σ E LM M Sp St GO LO DO) (ext : Externals E M Sp St M' Sp' St' ILO LO)
    (ctx : apirequest.Context) (ns name : String)
    (objInfo : rest.UpdatedObjectInfo E LM M' Sp' St') (forceAllowCreate : Bool)
    (w : World σ M Sp St GO LO DO)
    (b nb resp resp2 : hivev1.SyncIdentityProvider M Sp St) (st1 st2 st3 : σ)
    (old o : hiveapi.SyncIdentityProvider M' Sp' St')
    (hns : apirequest.NamespaceFrom ctx = some ns)
    (hget : (s.client.SyncIdentityProviders ns).Get name default w.store = (.ok b, st1))
    (hfrom : ext.SyncIdentityProviderFromHiveV1 b default = .ok old)
    (hobj : objInfo.UpdatedObject ctx old = .ok (.SyncIdentityProvider o))
    (hto : ext.SyncIdentityProviderToHiveV1 o b = .ok nb)
    (hspec : ({ nb with Status := default } : hivev1.SyncIdentityProvider M Sp St) ≠
      { b with Status := default })
    (hstatus : nb.Status ≠ b.Status)
    (hupd : (s.client.SyncIdentityProviders ns).Update { nb with Status := default } st1 =
      (.ok resp, st2))
    (hst : (s.client.SyncIdentityProviders ns).UpdateStatus
      { resp with Status := nb.Status } st2 = (.ok resp2, st3)) :
    ∃ r, s.Update ext ctx name objInfo forceAllowCreate w =
      some (r, { store := st3, calls := w.calls ++
        [BackingCall.Get ns name default,
         BackingCall.Update ns { nb with Status := default },
         BackingCall.UpdateStatus ns { resp with Status := nb.Status }] }) := by
  have hc := getClient_of_namespace s ext ctx ns hns
  simp only [REST.Update, hc, Client.Get, hget, hfrom, hobj, hto, reflect.DeepEqual,
    hspec, hstatus, Client.Update, hupd, Client.UpdateStatus, hst, decide_True, decide_False,
    Bool.not_true, Bool.not_false, Bool.false_eq_true, if_false, if_true, List.append_assoc,
    List.singleton_append, List.cons_append, List.nil_append]
  cases ext.SyncIdentityProviderFromHiveV1 resp2 default with
  | error err => exact ⟨_, rfl⟩
  | ok new => exact ⟨_, rfl⟩

/-- C8: when only the regular update is due (the converted result `nb` differs
from the fetched `b` once the statuses are zeroed, and has the status of `b`) and
it succeeds with response `resp`, `Update` returns the public conversion of `resp`
with its status set to the status of `nb`, together with `false` and no error,
after the calls `Get` and one regular `Update` carrying `nb` with its status
zeroed. -/
theorem Update_spec_only_result
    [DecidableEq M] [DecidableEq Sp] [DecidableEq St] [Inhabited St] [Inhabited GO]
    [Inhabited M'] [Inhabited Sp'] [Inhabited St']
    (s : REST σ E LM M Sp St GO LO DO) (ext : Externals E M Sp St M' Sp' St' ILO LO)
    (ctx : apirequest.Context) (ns name : String)
    (objInfo : rest.UpdatedObjectInfo E LM M' Sp' St') (forceAllowCreate : Bool)
    (w : World σ M Sp St GO LO DO)
    (b nb resp : hivev1.SyncIdentityProvider M Sp St) (st1 st2 : σ)
    (old o new : hiveapi.SyncIdentityProvider M' Sp' St')
    (hns : apirequest.NamespaceFrom ctx = some ns)
    (hget : (s.client.SyncIdentityProviders ns).Get name default w.store = (.ok b, st1))
    (hfrom : ext.SyncIdentityProviderFromHiveV1 b default = .ok old)
    (hobj : objInfo.UpdatedObject ctx old = .ok (.SyncIdentityProvider o))
    (hto : ext.SyncIdentityProviderToHiveV1 o b = .ok nb)
    (hspec : ({ nb with Status := default } : hivev1.SyncIdentityProvider M Sp St) ≠
      { b with Status := default })
    (hstatus : nb.Status = b.Status)
    (hupd : (s.client.SyncIdentityProviders ns).Update { nb with Status := default } st1 =
      (.ok resp, st2))
    (hnew : ext.SyncIdentityProviderFromHiveV1 { resp with Status := nb.Status } default =
      .ok new) :
    s.Update ext ctx name objInfo forceAllowCreate w =
      some ((some (.SyncIdentityProvider new), false, none),
        { store := st2, calls := w.calls ++
          [BackingCall.Get ns name default,
           BackingCall.Update ns { nb with Status := default }] }) := by
  have hc := getClient_of_namespace s ext ctx ns hns
  rw [hstatus] at hnew
  simp only [REST.Update, hc, Client.Get, hget, hfrom, hobj, hto, reflect.DeepEqual,
    hspec, hstatus, Client.Update, hupd, hnew, decide_True, decide_False,
    Bool.not_true, Bool.not_false, Bool.false_eq_true, if_false, if_true, List.append_assoc,
    List.singleton_append, List.cons_append, List.nil_append]

/-- C10: when the regular update is due and fails, `Update` returns its error with
no object and `false`, and the calls are exactly `Get`, `Update` (no `UpdateStatus`).
When the regular update succeeds and the status update is due and fails, `Update`
returns the error of the status update with no object and `false`, and the calls
are exactly `Get`, `Update`, `UpdateStatus`: nothing follows the failed call. -/
theorem Update_phase_error_aborts
    [DecidableEq M] [DecidableEq Sp] [DecidableEq St] [Inhabited St] [Inhabited GO]
    [Inhabited M'] [Inhabited Sp'] [Inhabited St']
    (s : REST σ E LM M Sp St GO LO DO) (ext : Externals E M Sp St M' Sp' St' ILO LO)
    (ctx : apirequest.Context) (ns name : String)
    (objInfo : rest.UpdatedObjectInfo E LM M' Sp' St') (forceAllowCreate : Bool)
    (w : World σ M Sp St GO LO DO)
    (b nb : hivev1.SyncIdentityProvider M Sp St) (st1 : σ)
    (old o : hiveapi.SyncIdentityProvider M' Sp' St')
    (hns : apirequest.NamespaceFrom ctx = some ns)
    (hget : (s.client.SyncIdentityProviders ns).Get name default w.store = (.ok b, st1))
    (hfrom : ext.SyncIdentityProviderFromHiveV1 b default = .ok old)
    (hobj : objInfo.UpdatedObject ctx old = .ok (.SyncIdentityProvider o))
    (hto : ext.SyncIdentityProviderToHiveV1 o b = .ok nb)
    (hspec : ({ nb with Status := default } : hivev1.SyncIdentityProvider M Sp St) ≠
      { b with Status := default })
 :
    (∀ (err : E) (st2 : σ),
      (s.client.SyncIdentityProviders ns).Update { nb with Status := default } st1 =
        (.error err, st2) →
      s.Update ext ctx name objInfo forceAllowCreate w =
        some ((none, false, some err), { store := st2, calls := w.calls ++
          [BackingCall.Get ns name default,
           BackingCall.Update ns { nb with Status := default }] })) ∧
    (∀ (resp : hivev1.SyncIdentityProvider M Sp St) (err : E) (st2 st3 : σ),
      nb.Status ≠ b.Status →
      (s.client.SyncIdentityProviders ns).Update { nb with Status := default } st1 =
        (.ok resp, st2) →
      (s.client.SyncIdentityProviders ns).UpdateStatus { resp with Status := nb.Status } st2 =
        (.error err, st3) →
      s.Update ext ctx name objInfo forceAllowCreate w =
        some ((none, false, some err), { store := st3, calls := w.calls ++
          [BackingCall.Get ns name default,
           BackingCall.Update ns { nb with Status := default },
           BackingCall.UpdateStatus ns { resp with Status := nb.Status }] })) := by
  have hc := getClient_of_namespace s ext ctx ns hns
  constructor
  · intro err st2 hupd
    simp only [REST.Update, hc, Client.Get, hget, hfrom, hobj, hto, reflect.DeepEqual,
      hspec, Client.Update, hupd, decide_False, Bool.not_false, if_true, List.append_assoc,
      List.singleton_append, List.cons_append, List.nil_append]
  · intro resp err st2 st3 hstatus hupd hst
    simp only [REST.Update, hc, Client.Get, hget, hfrom, hobj, hto, reflect.DeepEqual,
    hspec, hstatus, Client.Update, hupd, Client.UpdateStatus, hst, decide_True, decide_False,
    Bool.not_true, Bool.not_false, Bool.false_eq_true, if_false, if_true, List.append_assoc,
    List.singleton_append, List.cons_append, List.nil_append]

/-- When `convertItems` succeeds, its result has the length of its input and
its item at each index is the conversion of the input item at that index. -/
theorem convertItems_ok_spec [Inhabited M'] [Inhabited Sp'] [Inhabited St']
    (ext : Externals E M Sp St M' Sp' St' ILO LO) :
    ∀ (l : List (hivev1.SyncIdentityProvider M Sp St))
      (items : List (hiveapi.SyncIdentityProvider M' Sp' St')),
      convertItems ext l = .ok items →
      items.length = l.length ∧
      ∀ (i : Nat) (b : hivev1.SyncIdentityProvider M Sp St), l[i]? = some b →
        ∃ a, items[i]? = some a ∧ ext.SyncIdentityProviderFromHiveV1 b default = .ok a
  | [], items, h => by
    simp only [convertItems, Except.ok.injEq] at h
    subst h
    simp
  | curr :: more, items, h => by
    simp only [convertItems] at h
    cases hcurr : ext.SyncIdentityProviderFromHiveV1 curr default with
    | error err => simp [hcurr] at h
    | ok item =>
      cases hmore : convertItems ext more with
      | error err => simp [hcurr, hmore] at h
      | ok rest =>
        simp only [hcurr, hmore, Except.ok.injEq] at h
        subst h
        obtain ⟨hlen, hidx⟩ := convertItems_ok_spec ext more rest hmore
        refine ⟨by simp [hlen], ?_⟩
        intro i b hb
        cases i with
        | zero =>
          simp only [List.getElem?_cons_zero, Option.some.injEq] at hb
          subst hb
          exact ⟨item, by simp, hcurr⟩
        | succ j =>
          simp only [List.getElem?_cons_succ] at hb
          obtain ⟨a, ha, hconv⟩ := hidx j b hb
          exact ⟨a, by simpa using ha, hconv⟩

/-- When every item converts, `convertItems` succeeds. -/
theorem convertItems_ok_of_all [Inhabited M'] [Inhabited Sp'] [Inhabited St']
    (ext : Externals E M Sp St M' Sp' St' ILO LO) :
    ∀ (l : List (hivev1.SyncIdentityProvider M Sp St)),
      (∀ b ∈ l, ∃ a, ext.SyncIdentityProviderFromHiveV1 b default = .ok a) →
      ∃ items, convertItems ext l = .ok items
  | [], _ => ⟨[], by simp [convertItems]⟩
  | curr :: more, h => by
    obtain ⟨item, hcurr⟩ := h curr (by simp)
    obtain ⟨rest, hmore⟩ := convertItems_ok_of_all ext more
      (fun b hb => h b (by simp [hb]))
    exact ⟨item :: rest, by simp [convertItems, hcurr, hmore]⟩

/-- The error of `convertItems` is the error of the first item that fails to convert. -/
theorem convertItems_error_of_first [Inhabited M'] [Inhabited Sp'] [Inhabited St']
    (ext : Externals E M Sp St M' Sp' St' ILO LO)
    (x : hivev1.SyncIdentityProvider M Sp St)
    (post : List (hivev1.SyncIdentityProvider M Sp St)) (err : E)
    (hx : ext.SyncIdentityProviderFromHiveV1 x default = .error err) :
    ∀ (pre : List (hivev1.SyncIdentityProvider M Sp St)),
      (∀ y ∈ pre, ∃ a, ext.SyncIdentityProviderFromHiveV1 y default = .ok a) →
      convertItems ext (pre ++ x :: post) = .error err
  | [], _ => by simp [convertItems, hx]
  | y :: pre, h => by
    obtain ⟨a, hy⟩ := h y (by simp)
    have ih := convertItems_error_of_first ext x post err hx pre
      (fun z hz => h z (by simp [hz]))
    simp [convertItems, hy, ih]

/-- When some item fails to convert, `convertItems` fails, with the error of one
of the items. -/
theorem convertItems_error_of_mem [Inhabited M'] [Inhabited Sp'] [Inhabited St']
    (ext : Externals E M Sp St M' Sp' St' ILO LO) :
    ∀ (l : List (hivev1.SyncIdentityProvider M Sp St)),
      (∃ b ∈ l, ∃ err, ext.SyncIdentityProviderFromHiveV1 b default = .error err) →
      ∃ err, convertItems ext l = .error err ∧
        ∃ x ∈ l, ext.SyncIdentityProviderFromHiveV1 x default = .error err
  | [], h => by simp at h
  | curr :: more, h => by
    cases hcurr : ext.SyncIdentityProviderFromHiveV1 curr default with
    | error err => exact ⟨err, by simp [convertItems, hcurr], curr, by simp, hcurr⟩
    | ok item =>
      obtain ⟨b, hb, err, hberr⟩ := h
      have hmem : b ∈ more := by
        rcases List.mem_cons.mp hb with rfl | hb'
        · rw [hcurr] at hberr
          cases hberr
        · exact hb'
      obtain ⟨err', herr', x, hx, hxerr⟩ :=
        convertItems_error_of_mem ext more ⟨b, hmem, err, hberr⟩
      exact ⟨err', by simp [convertItems, hcurr, herr'], x, by simp [hx], hxerr⟩

/-- C9: with a namespace in the context. If the option translation fails, `List`
returns that error, no list, and makes no backing call. If the backing list call
fails, `List` returns that error and no list. If the backing list call succeeds and
every item converts, `List` returns a list with the list metadata of the backing
list, as many items, and at each index the public conversion of the backing item.
If some item fails to convert, `List` returns an error of an item conversion and no
list, and that error is the one of the first item that fails. -/
theorem List_result [Inhabited M'] [Inhabited Sp'] [Inhabited St'] [Inhabited LO]
    (s : REST σ E LM M Sp St GO LO DO) (ext : Externals E M Sp St M' Sp' St' ILO LO)
    (ctx : apirequest.Context) (ns : String) (options : ILO)
    (w : World σ M Sp St GO LO DO)
    (hns : apirequest.NamespaceFrom ctx = some ns) :
    (∀ err : E,
      ext.Convert_internalversion_ListOptions_To_v1_ListOptions options default = .error err →
      s.List ext ctx options w = some ((none, some err), w)) ∧
    (∀ (optv1 : LO) (err : E) (st1 : σ),
      ext.Convert_internalversion_ListOptions_To_v1_ListOptions options default = .ok optv1 →
      (s.client.SyncIdentityProviders ns).List optv1 w.store = (.error err, st1) →
      s.List ext ctx options w = some ((none, some err),
        { store := st1, calls := w.calls ++ [BackingCall.List ns optv1] })) ∧
    (∀ (optv1 : LO) (l : hivev1.SyncIdentityProviderList LM M Sp St) (st1 : σ),
      ext.Convert_internalversion_ListOptions_To_v1_ListOptions options default = .ok optv1 →
      (s.client.SyncIdentityProviders ns).List optv1 w.store = (.ok l, st1) →
      ((∀ b ∈ l.Items, ∃ a, ext.SyncIdentityProviderFromHiveV1 b default = .ok a) →
        ∃ items : List (hiveapi.SyncIdentityProvider M' Sp' St'),
          s.List ext ctx options w =
            some ((some (.SyncIdentityProviderList
                { ListMeta := l.ListMeta, Items := items }), none),
              { store := st1, calls := w.calls ++ [BackingCall.List ns optv1] }) ∧
          items.length = l.Items.length ∧
          ∀ (i : Nat) (b : hivev1.SyncIdentityProvider M Sp St), l.Items[i]? = some b →
            ∃ a, items[i]? = some a ∧
              ext.SyncIdentityProviderFromHiveV1 b default = .ok a) ∧
      ((∃ b ∈ l.Items, ∃ err, ext.SyncIdentityProviderFromHiveV1 b default = .error err) →
        ∃ err : E, (∃ x ∈ l.Items, ext.SyncIdentityProviderFromHiveV1 x default = .error err) ∧
          s.List ext ctx options w = some ((none, some err),
            { store := st1, calls := w.calls ++ [BackingCall.List ns optv1] })) ∧
      (∀ (pre post : List (hivev1.SyncIdentityProvider M Sp St))
        (x : hivev1.SyncIdentityProvider M Sp St) (err : E),
        l.Items = pre ++ x :: post →
        (∀ y ∈ pre, ∃ a, ext.SyncIdentityProviderFromHiveV1 y default = .ok a) →
        ext.SyncIdentityProviderFromHiveV1 x default = .error err →
        s.List ext ctx options w = some ((none, some err),
          { store := st1, calls := w.calls ++ [BackingCall.List ns optv1] }))) := by
  have hc := getClient_of_namespace s ext ctx ns hns
  refine ⟨?_, ?_, ?_⟩
  · intro err hopt
    simp only [REST.List, hc, hopt]
  · intro optv1 err st1 hopt hlist
    simp only [REST.List, hc, hopt, Client.List, hlist]
  · intro optv1 l st1 hopt hlist
    refine ⟨?_, ?_, ?_⟩
    · intro hall
      obtain ⟨items, hitems⟩ := convertItems_ok_of_all ext l.Items hall
      obtain ⟨hlen, hidx⟩ := convertItems_ok_spec ext l.Items items hitems
      refine ⟨items, ?_, hlen, hidx⟩
      simp only [REST.List, hc, hopt, Client.List, hlist, hitems]
    · intro hbad
      obtain ⟨err, herr, hx⟩ := convertItems_error_of_mem ext l.Items hbad
      refine ⟨err, hx, ?_⟩
      simp only [REST.List, hc, hopt, Client.List, hlist, herr]
    · intro pre post x err hsplit hpre hx
      have herr := convertItems_error_of_first ext x post err hx pre hpre
      rw [← hsplit] at herr
      simp only [REST.List, hc, hopt, Client.List, hlist, herr]

/-- In the scenario without a namespace, the five operations return the
bad-request error and the world stays as it was. -/
theorem no_namespace_bad_request_witness :
    scenario.storage.Get scenario.ext scenario.bare "r1" () scenario.w0 =
      some ((none, some (scenario.Err.badRequest "namespace parameter required")),
        scenario.w0) ∧
    scenario.storage.List scenario.ext scenario.bare "" scenario.w0 =
      some ((none, some (scenario.Err.badRequest "namespace parameter required")),
        scenario.w0) ∧
    scenario.storage.Delete scenario.ext scenario.bare "r1" () scenario.w0 =
      some ((none, false, some (scenario.Err.badRequest "namespace parameter required")),
        scenario.w0) ∧
    scenario.storage.Create scenario.ext scenario.bare
        (.SyncIdentityProvider { ObjectMeta := "r3", Spec := "A", Status := "" })
        scenario.w0 =
      some ((none, some (scenario.Err.badRequest "namespace parameter required")),
        scenario.w0) ∧
    scenario.storage.Update scenario.ext scenario.bare "r1" (scenario.edit (some "B") none)
        false scenario.w0 =
      some ((none, false, some (scenario.Err.badRequest "namespace parameter required")),
        scenario.w0) :=
  have h := no_namespace_bad_request scenario.storage scenario.ext scenario.bare
    scenario.w0 rfl
  ⟨h.1 "r1" (), h.2.1 "", h.2.2.1 "r1" (),
    h.2.2.2.1 { ObjectMeta := "r3", Spec := "A", Status := "" },
    h.2.2.2.2 "r1" (scenario.edit (some "B") none) false⟩

/-- In the scenario, deleting `r1` succeeds and deleting `r9` returns not-found;
each makes the one backing delete call. -/
theorem Delete_result_witness :
    (∃ status : metav1.Status, status.Status = metav1.StatusSuccess ∧
      scenario.storage.Delete scenario.ext scenario.ctx "r1" () scenario.w0 =
        some ((some (runtime.Object.Status status), true, none),
          { store := scenario.r1, calls := [BackingCall.Delete "ns1" "r1" ()] })) ∧
    scenario.storage.Delete scenario.ext scenario.ctx "r9" () scenario.w0 =
      some ((none, false, some scenario.Err.notFound),
        { store := scenario.r1, calls := [BackingCall.Delete "ns1" "r9" ()] }) :=
  ⟨(Delete_result scenario.storage scenario.ext scenario.ctx "ns1" "r1" () scenario.w0
      rfl).1 scenario.r1 (by decide),
   (Delete_result scenario.storage scenario.ext scenario.ctx "ns1" "r9" () scenario.w0
      rfl).2 scenario.Err.notFound scenario.r1 (by decide)⟩

/-- In the scenario, a transform that changes nothing makes `Update` read `r1`
and write nothing. -/
theorem Update_identity_no_write_witness :
    scenario.storage.Update scenario.ext scenario.ctx "r1" (scenario.edit none none) false
        scenario.w0 =
      some ((some (.SyncIdentityProvider (hiveapi.SyncIdentityProvider.mk "r1" "A" "X")),
          false, none),
        { store := scenario.r1, calls := [BackingCall.Get "ns1" "r1" ()] }) :=
  Update_identity_no_write scenario.storage scenario.ext scenario.ctx "ns1" "r1"
    (scenario.edit none none) false scenario.w0 scenario.r1 scenario.r1
    (hiveapi.SyncIdentityProvider.mk "r1" "A" "X") rfl (by decide) (by decide) (by decide)
    (by decide)

/-- In the scenario, a transform that fails makes `Update` return its error after
the one read. -/
theorem Update_transform_error_witness :
    scenario.storage.Update scenario.ext scenario.ctx "r1" scenario.refuse false
        scenario.w0 =
      some ((none, false, some scenario.Err.conflict),
        { store := scenario.r1, calls := [BackingCall.Get "ns1" "r1" ()] }) :=
  Update_transform_error scenario.storage scenario.ext scenario.ctx "ns1" "r1"
    scenario.refuse false scenario.w0 scenario.r1 scenario.r1
    (hiveapi.SyncIdentityProvider.mk "r1" "A" "X") scenario.Err.conflict rfl (by decide)
    (by decide) (by decide)

/-- In the scenario, changing the spec of `r1` from `A` to `B` makes the calls
`Get` and one regular `Update`. -/
theorem Update_spec_change_one_update_witness :
    ∃ r, scenario.storage.Update scenario.ext scenario.ctx "r1"
        (scenario.edit (some "B") none) false scenario.w0 =
      some (r, { store := hivev1.SyncIdentityProvider.mk "r1" "B" "X",
                 calls := [BackingCall.Get "ns1" "r1" (),
                   BackingCall.Update "ns1" (hivev1.SyncIdentityProvider.mk "r1" "B" "")] }) :=
  Update_spec_change_one_update scenario.storage scenario.ext scenario.ctx "ns1" "r1"
    (scenario.edit (some "B") none) false scenario.w0 scenario.r1
    (hivev1.SyncIdentityProvider.mk "r1" "B" "X") (hivev1.SyncIdentityProvider.mk "r1" "B" "")
    scenario.r1 (hivev1.SyncIdentityProvider.mk "r1" "B" "X")
    (hiveapi.SyncIdentityProvider.mk "r1" "A" "X") (hiveapi.SyncIdentityProvider.mk "r1" "B" "X")
    rfl (by decide) (by decide) (by decide) (by decide) (by decide) (by decide) (by decide)

/-- In the scenario, changing the status of `r1` from `X` to `Y` makes the calls
`Get` and one `UpdateStatus`. -/
theorem Update_status_change_one_status_update_witness :
    ∃ r, scenario.storage.Update scenario.ext scenario.ctx "r1"
        (scenario.edit none (some "Y")) false scenario.w0 =
      some (r, { store := hivev1.SyncIdentityProvider.mk "r1" "A" "Y",
                 calls := [BackingCall.Get "ns1" "r1" (),
                   BackingCall.UpdateStatus "ns1"
                     (hivev1.SyncIdentityProvider.mk "r1" "A" "Y")] }) :=
  Update_status_change_one_status_update scenario.storage scenario.ext scenario.ctx "ns1"
    "r1" (scenario.edit none (some "Y")) false scenario.w0 scenario.r1
    (hivev1.SyncIdentityProvider.mk "r1" "A" "Y") (hivev1.SyncIdentityProvider.mk "r1" "A" "Y")
    scenario.r1 (hivev1.SyncIdentityProvider.mk "r1" "A" "Y")
    (hiveapi.SyncIdentityProvider.mk "r1" "A" "X") (hiveapi.SyncIdentityProvider.mk "r1" "A" "Y")
    rfl (by decide) (by decide) (by decide) (by decide) (by decide) (by decide) (by decide)

/-- In the scenario, changing the spec to `B` and the status to `Y` makes the calls
`Get`, a regular `Update` with the status zeroed, then an `UpdateStatus` with the
new status on the response of the regular update. -/
theorem Update_both_change_trace_witness :
    ∃ r, scenario.storage.Update scenario.ext scenario.ctx "r1"
        (scenario.edit (some "B") (some "Y")) false scenario.w0 =
      some (r, { store := hivev1.SyncIdentityProvider.mk "r1" "B" "Y",
                 calls := [BackingCall.Get "ns1" "r1" (),
                   BackingCall.Update "ns1" (hivev1.SyncIdentityProvider.mk "r1" "B" ""),
                   BackingCall.UpdateStatus "ns1"
                     (hivev1.SyncIdentityProvider.mk "r1" "B" "Y")] }) :=
  Update_both_change_trace scenario.storage scenario.ext scenario.ctx "ns1" "r1"
    (scenario.edit (some "B") (some "Y")) false scenario.w0 scenario.r1
    (hivev1.SyncIdentityProvider.mk "r1" "B" "Y") (hivev1.SyncIdentityProvider.mk "r1" "B" "")
    (hivev1.SyncIdentityProvider.mk "r1" "B" "Y")
    scenario.r1 (hivev1.SyncIdentityProvider.mk "r1" "B" "X")
    (hivev1.SyncIdentityProvider.mk "r1" "B" "Y")
    (hiveapi.SyncIdentityProvider.mk "r1" "A" "X") (hiveapi.SyncIdentityProvider.mk "r1" "B" "Y")
    rfl (by decide) (by decide) (by decide) (by decide) (by decide) (by decide) (by decide)
    (by decide)

/-- The scenario of the specification: `r1` has spec `A` and status `X`, the
transform changes the spec to `B`, the store answers with what it is given. There
is one regular update carrying spec `B`, no status update, and the returned
resource has spec `B` and status `X`. -/
theorem Update_spec_only_result_witness :
    scenario.storage.Update scenario.ext scenario.ctx "r1" (scenario.edit (some "B") none)
        false scenario.w0 =
      some ((some (.SyncIdentityProvider (hiveapi.SyncIdentityProvider.mk "r1" "B" "X")),
          false, none),
        { store := hivev1.SyncIdentityProvider.mk "r1" "B" "X",
          calls := [BackingCall.Get "ns1" "r1" (),
            BackingCall.Update "ns1" (hivev1.SyncIdentityProvider.mk "r1" "B" "")] }) :=
  Update_spec_only_result scenario.storage scenario.ext scenario.ctx "ns1" "r1"
    (scenario.edit (some "B") none) false scenario.w0 scenario.r1
    (hivev1.SyncIdentityProvider.mk "r1" "B" "X") (hivev1.SyncIdentityProvider.mk "r1" "B" "")
    scenario.r1 (hivev1.SyncIdentityProvider.mk "r1" "B" "X")
    (hiveapi.SyncIdentityProvider.mk "r1" "A" "X") (hiveapi.SyncIdentityProvider.mk "r1" "B" "X")
    (hiveapi.SyncIdentityProvider.mk "r1" "B" "X")
    rfl (by decide) (by decide) (by decide) (by decide) (by decide) (by decide) (by decide)
    (by decide)

/-- In the scenario, a rejected regular update ends `Update` after the calls `Get`,
`Update`; a rejected status update ends it after `Get`, `Update`, `UpdateStatus`,
the spec `B` staying stored. -/
theorem Update_phase_error_aborts_witness :
    scenario.storage.Update scenario.ext scenario.ctx "r1"
        (scenario.edit (some "bad") (some "Y")) false scenario.w0 =
      some ((none, false, some scenario.Err.invalid),
        { store := scenario.r1,
          calls := [BackingCall.Get "ns1" "r1" (),
            BackingCall.Update "ns1" (hivev1.SyncIdentityProvider.mk "r1" "bad" "")] }) ∧
    scenario.storage.Update scenario.ext scenario.ctx "r1"
        (scenario.edit (some "B") (some "bad")) false scenario.w0 =
      some ((none, false, some scenario.Err.conflict),
        { store := hivev1.SyncIdentityProvider.mk "r1" "B" "X",
          calls := [BackingCall.Get "ns1" "r1" (),
            BackingCall.Update "ns1" (hivev1.SyncIdentityProvider.mk "r1" "B" ""),
            BackingCall.UpdateStatus "ns1"
              (hivev1.SyncIdentityProvider.mk "r1" "B" "bad")] }) :=
  ⟨(Update_phase_error_aborts scenario.storage scenario.ext scenario.ctx "ns1" "r1"
      (scenario.edit (some "bad") (some "Y")) false scenario.w0 scenario.r1
      (hivev1.SyncIdentityProvider.mk "r1" "bad" "Y") scenario.r1
      (hiveapi.SyncIdentityProvider.mk "r1" "A" "X")
      (hiveapi.SyncIdentityProvider.mk "r1" "bad" "Y")
      rfl (by decide) (by decide) (by decide) (by decide) (by decide)).1
      scenario.Err.invalid scenario.r1 (by decide),
   (Update_phase_error_aborts scenario.storage scenario.ext scenario.ctx "ns1" "r1"
      (scenario.edit (some "B") (some "bad")) false scenario.w0 scenario.r1
      (hivev1.SyncIdentityProvider.mk "r1" "B" "bad") scenario.r1
      (hiveapi.SyncIdentityProvider.mk "r1" "A" "X")
      (hiveapi.SyncIdentityProvider.mk "r1" "B" "bad")
      rfl (by decide) (by decide) (by decide) (by decide) (by decide)).2
      (hivev1.SyncIdentityProvider.mk "r1" "B" "") scenario.Err.conflict
      (hivev1.SyncIdentityProvider.mk "r1" "B" "X") (hivev1.SyncIdentityProvider.mk "r1" "B" "X")
      (by decide) (by decide) (by decide)⟩

/-- In the scenario: a malformed selector fails before any backing call; a
rejected list call returns its error; a list of the one convertible item comes
back whole, with the list metadata of the backing list; a list with an item that
cannot be converted gives the conversion error and no list. -/
theorem List_result_witness :
    scenario.storage.List scenario.ext scenario.ctx "malformed" scenario.w0 =
      some ((none, some scenario.Err.invalid), scenario.w0) ∧
    scenario.storage.List scenario.ext scenario.ctx "bad" scenario.w0 =
      some ((none, some scenario.Err.invalid),
        { store := scenario.r1, calls := [BackingCall.List "ns1" "bad"] }) ∧
    (∃ items : List (hiveapi.SyncIdentityProvider String String String),
      scenario.storage.List scenario.ext scenario.ctx "" scenario.w0 =
        some ((some (.SyncIdentityProviderList { ListMeta := "rv7", Items := items }), none),
          { store := scenario.r1, calls := [BackingCall.List "ns1" ""] }) ∧
      items.length = 1 ∧
      ∀ (i : Nat) (b : hivev1.SyncIdentityProvider String String String),
        [scenario.r1][i]? = some b →
        ∃ a, items[i]? = some a ∧
          scenario.ext.SyncIdentityProviderFromHiveV1 b default = .ok a) ∧
    scenario.storage.List scenario.ext scenario.ctx "all" scenario.w0 =
      some ((none, some scenario.Err.conversion),
        { store := scenario.r1, calls := [BackingCall.List "ns1" "all"] }) :=
  have hconv : ∀ y ∈ [scenario.r1],
      ∃ a, scenario.ext.SyncIdentityProviderFromHiveV1 y default = .ok a := by
    intro y hy
    rw [List.mem_singleton] at hy
    subst hy
    exact ⟨hiveapi.SyncIdentityProvider.mk "r1" "A" "X", by decide⟩
  ⟨(List_result scenario.storage scenario.ext scenario.ctx "ns1" "malformed" scenario.w0
      rfl).1 scenario.Err.invalid (by decide),
   (List_result scenario.storage scenario.ext scenario.ctx "ns1" "bad" scenario.w0
      rfl).2.1 "bad" scenario.Err.invalid scenario.r1 (by decide) (by decide),
   ((List_result scenario.storage scenario.ext scenario.ctx "ns1" "" scenario.w0
      rfl).2.2 "" { ListMeta := "rv7", Items := [scenario.r1] } scenario.r1
      (by decide) (by decide)).1 hconv,
   ((List_result scenario.storage scenario.ext scenario.ctx "ns1" "all" scenario.w0
      rfl).2.2 "all" { ListMeta := "rv7", Items := [scenario.r1, scenario.r2] } scenario.r1
      (by decide) (by decide)).2.2 [scenario.r1] [] scenario.r2 scenario.Err.conversion
      rfl hconv (by decide)⟩

end properties

end syncidentityprovider
